import Mathlib

/-!
Shallow embedding of the frontend of the knowledge-base-rag repository
(frontend/src/App.jsx) together with the spec-level contracts of the
backend boundaries it talks to.  Each React event handler becomes a pure
function from the component state (plus the outcome of its HTTP call) to
the new component state and the list of requests the handler sent.
-/

namespace App

/-- Shape of the stats boundary response as the frontend consumes it:
`stats.total_documents` and `stats.total_chunks` (App.jsx lines 154, 160,
stats boundary contract of the spec). -/
structure StatsResponse where
  total_documents : Nat
  total_chunks : Nat
deriving DecidableEq, Repr

/-- The `statistics` object the frontend reads out of the upload response
(App.jsx line 44: `result.statistics.documents`, `result.statistics.chunks`). -/
structure UploadStatistics where
  documents : Nat
  chunks : Nat
deriving DecidableEq, Repr

/-- JSON body of an upload response.  It can carry the three fields the
spec says the upload boundary returns (`documents_processed`,
`chunks_created`, `per_document_errors`) as well as the `statistics`
object that App.jsx line 44 actually dereferences; any of them may be
absent from the JSON. -/
structure UploadResult where
  documents_processed : Option Nat := none
  chunks_created : Option Nat := none
  per_document_errors : Option (List String) := none
  statistics : Option UploadStatistics := none
deriving DecidableEq, Repr

/-- One cited source in an answer (App.jsx lines 289-292). -/
structure SourceEntry where
  filename : String
  relevance_score : ℚ
deriving DecidableEq, Repr

/-- The answer object the frontend stores in its `answer` state
(App.jsx lines 83, 85-88, 91-94 and the render at lines 273-307). -/
structure AnswerView where
  answer : String
  sources : List SourceEntry
  confidence : Option String := none
deriving DecidableEq, Repr

/-- Request body of the query boundary (App.jsx lines 73-77). -/
structure QueryRequest where
  question : String
  top_k : Nat
  include_sources : Bool
deriving DecidableEq, Repr

/-- The React component state: the six `useState` hooks of
`KnowledgeBaseApp` (App.jsx lines 6-11); files are represented by their
names. -/
structure AppState where
  files : List String
  query : String
  answer : Option AnswerView
  loading : Bool
  stats : Option StatsResponse
  uploadStatus : String
deriving DecidableEq, Repr

/-- A network request the frontend can emit. -/
inductive Request where
  | uploadReq (files : List String)
  | queryReq (body : QueryRequest)
  | statsReq
  | clearReq
deriving DecidableEq, Repr

/-- Outcome of one `fetch` call: an ok response with a parsed JSON body, a
non-ok response of which the handlers only read `result.detail` (possibly
absent from the JSON), or a thrown error (network failure or JSON parse
failure) with its message. -/
inductive HttpOutcome (α : Type) where
  | ok (body : α)
  | notOk (detail : Option String)
  | threw (message : String)

/-- JavaScript template-literal rendering of a possibly-undefined value:
an absent field interpolates as the string "undefined". -/
def optionText : Option String → String
  | some t => t
  | none => "undefined"

/-- The success status message of App.jsx line 44, built from the
`statistics` object of the upload response. -/
def uploadSuccessMessage (st : UploadStatistics) : String :=
  "✓ Successfully processed " ++ toString st.documents ++ " documents ("
    ++ toString st.chunks ++ " chunks)"

/-- Message of the TypeError thrown at App.jsx line 44 when the upload
response has no `statistics` object and `result.statistics.documents` is
dereferenced; it is caught by the catch block at line 51. -/
def statisticsUndefinedMessage : String :=
  "Cannot read properties of undefined reading documents"

/-- The document and chunk counts the frontend reports on upload success,
as read from the response: App.jsx line 44 reads
`result.statistics.documents` and `result.statistics.chunks`. -/
def uploadReportedCounts (r : UploadResult) : Option (Nat × Nat) :=
  r.statistics.map (fun st => (st.documents, st.chunks))

/-- `uploadDocuments` (App.jsx lines 23-56).  Guard: with no selected
files it alerts and returns without any request.  Otherwise it POSTs the
files to /upload; on an ok response it reads `result.statistics`, shows
the success message, clears the file selection and refreshes the stats
(the trailing `fetchStats()` call appears as a stats request); on a
non-ok response or a thrown error it shows an error status.  The
`finally` block resets `loading`. -/
def uploadDocuments (s : AppState) (outcome : HttpOutcome UploadResult) :
    AppState × List Request :=
  if s.files = [] then (s, [])
  else
    let sent := [Request.uploadReq s.files]
    match outcome with
    | HttpOutcome.ok r =>
      match r.statistics with
      | some st =>
        ({ s with loading := false,
                  uploadStatus := uploadSuccessMessage st,
                  files := [] },
         sent ++ [Request.statsReq])
      | none =>
        ({ s with loading := false,
                  uploadStatus := "✗ Error: " ++ statisticsUndefinedMessage },
         sent)
    | HttpOutcome.notOk d =>
      ({ s with loading := false, uploadStatus := "✗ Error: " ++ optionText d },
       sent)
    | HttpOutcome.threw m =>
      ({ s with loading := false, uploadStatus := "✗ Error: " ++ m }, sent)

/-- Embedding of JavaScript `String.prototype.trim`: removes leading and
trailing whitespace.  (Written over the character list so that it
evaluates inside the kernel.) -/
def jsTrim (q : String) : String :=
  String.mk
    (((q.data.dropWhile Char.isWhitespace).reverse.dropWhile
        Char.isWhitespace).reverse)

/-- The JSON body App.jsx lines 73-77 serialize for the query boundary. -/
def searchRequest (q : String) : QueryRequest :=
  { question := q, top_k := 5, include_sources := true }

/-- `searchKnowledgeBase` (App.jsx lines 58-98).  Guard: a question whose
trim is empty alerts and returns without any request.  Otherwise it POSTs
`{question, top_k: 5, include_sources: true}` to /query; on ok it stores
the response as the answer; on a non-ok response or a thrown error it
stores a degraded answer object with an error text and empty sources.
The `finally` block resets `loading`. -/
def searchKnowledgeBase (s : AppState) (outcome : HttpOutcome AnswerView) :
    AppState × List Request :=
  if jsTrim s.query = "" then (s, [])
  else
    let sent := [Request.queryReq (searchRequest s.query)]
    match outcome with
    | HttpOutcome.ok body =>
      ({ s with loading := false, answer := some body }, sent)
    | HttpOutcome.notOk d =>
      ({ s with loading := false,
                answer := some { answer := "Error: " ++ optionText d,
                                 sources := [] } }, sent)
    | HttpOutcome.threw m =>
      ({ s with loading := false,
                answer := some { answer := "Error: " ++ m,
                                 sources := [] } }, sent)

/-- `fetchStats` (App.jsx lines 100-108): GETs /stats and stores the
parsed body in `stats` with no ok-check; a thrown error is logged and the
state is left unchanged. -/
def fetchStats (s : AppState) (outcome : Except String StatsResponse) :
    AppState × List Request :=
  match outcome with
  | Except.ok body => ({ s with stats := some body }, [Request.statsReq])
  | Except.error _ => (s, [Request.statsReq])

/-- `clearKnowledgeBase` (App.jsx lines 110-136).  Guard: a declined
confirm dialog returns without any request.  Otherwise it sends one
DELETE to /clear; on ok it shows the cleared confirmation and resets
`stats` and `answer` to null; otherwise it shows an error status.  The
`finally` block resets `loading`. -/
def clearKnowledgeBase (s : AppState) (confirmed : Bool)
    (outcome : HttpOutcome Unit) : AppState × List Request :=
  if confirmed = false then (s, [])
  else
    let sent := [Request.clearReq]
    match outcome with
    | HttpOutcome.ok _ =>
      ({ s with loading := false,
                uploadStatus := "✓ Knowledge base cleared",
                stats := none,
                answer := none }, sent)
    | HttpOutcome.notOk d =>
      ({ s with loading := false, uploadStatus := "✗ Error: " ++ optionText d },
       sent)
    | HttpOutcome.threw m =>
      ({ s with loading := false, uploadStatus := "✗ Error: " ++ m }, sent)

/-- `handleFileChange` (App.jsx lines 19-21): stores the selected files
in component state with no filtering or validation. -/
def handleFileChange (s : AppState) (selected : List String) : AppState :=
  { s with files := selected }

/-- The `accept` attribute of the file input (App.jsx line 184). -/
def acceptAttribute : String := ".pdf,.txt,.docx,.pptx"

/-- Splits a character stream at commas (used to read the accept
attribute as a list of extensions; written so it evaluates inside the
kernel). -/
def splitCommaAux : List Char → List Char → List String
  | [], acc => [String.mk acc.reverse]
  | c :: rest, acc =>
    if c = ',' then String.mk acc.reverse :: splitCommaAux rest []
    else splitCommaAux rest (c :: acc)

/-- The extensions the accept attribute declares, as a list. -/
def acceptedExtensions : List String :=
  splitCommaAux acceptAttribute.data []

/-- Whether a filename ends in one of the declared accept extensions. -/
def hasAcceptedExtension (filename : String) : Bool :=
  acceptedExtensions.any (fun e => e.data.isSuffixOf filename.data)

/-- The render condition of the stats bar, which contains the Clear All
button (App.jsx line 148: `stats && stats.total_chunks > 0`). -/
def statsBarVisible (s : AppState) : Bool :=
  match s.stats with
  | none => false
  | some st => decide (0 < st.total_chunks)

/-- The Clear All button is rendered exactly when the stats bar is
(App.jsx lines 148-169). -/
def clearAllReachable (s : AppState) : Bool := statsBarVisible s

/-- The document count shown in the stats bar (App.jsx line 154). -/
def displayedDocuments (s : AppState) : Option Nat :=
  s.stats.map StatsResponse.total_documents

/-- The chunk count shown in the stats bar (App.jsx line 160). -/
def displayedChunks (s : AppState) : Option Nat :=
  s.stats.map StatsResponse.total_chunks

/-- The discrete confidence labels of the spec data model. -/
inductive Confidence where
  | high
  | medium
  | low
deriving DecidableEq, Repr

/-- One entry of a RetrievalResult: a chunk reference with its similarity
score, the sequence being ordered by descending score. -/
structure ScoredChunk where
  chunk_ref : String
  similarity_score : ℚ
deriving DecidableEq, Repr

/-- The top retrieved similarity score of a RetrievalResult: the score of
its first entry (the sequence is ordered by descending score), none when
the result is empty. -/
def topScore (r : List ScoredChunk) : Option ℚ :=
  r.head?.map ScoredChunk.similarity_score

/-- Modelled from the spec: the Confidence Scorer
(`score(retrieval) -> high | medium | low`) lives in the backend
(backend/core/rag_engine.py), which is absent from the sources.  Per the
spec policy it looks at the top retrieved similarity score: high when
above 0.70, medium when in [0.50, 0.70], low when below 0.50, and low
(not an error) on an empty RetrievalResult. -/
def score (r : List ScoredChunk) : Confidence :=
  match r with
  | [] => Confidence.low
  | c :: _ =>
    if 7/10 < c.similarity_score then Confidence.high
    else if 1/2 ≤ c.similarity_score then Confidence.medium
    else Confidence.low

/-! Theorems settling the claims. -/

/-- C1 (counterexample): the claim that the document and chunk counts the
frontend reports on upload success are read from the response fields
`documents_processed` and `chunks_created` is false: at a concrete ok
response carrying `documents_processed = 2`, `chunks_created = 7` and
`statistics = {documents: 3, chunks: 9}`, the success status message
reports 3 documents and 9 chunks — the counts read from the `statistics`
field — and not 2 and 7. -/
theorem claim1_counterexample :
    uploadReportedCounts
        { documents_processed := some 2, chunks_created := some 7,
          per_document_errors := some [],
          statistics := some { documents := 3, chunks := 9 } }
      = some (3, 9) ∧
    (uploadDocuments
        { files := ["a.pdf"], query := "", answer := none, loading := false,
          stats := none, uploadStatus := "" }
        (HttpOutcome.ok
          { documents_processed := some 2, chunks_created := some 7,
            per_document_errors := some [],
            statistics := some { documents := 3, chunks := 9 } })).1.uploadStatus
      = "✓ Successfully processed 3 documents (9 chunks)" ∧
    uploadSuccessMessage { documents := 2, chunks := 7 }
      ≠ "✓ Successfully processed 3 documents (9 chunks)" := by
  refine ⟨rfl, ?_, ?_⟩ <;> decide

/-- C1 (amended): for every upload invocation whose HTTP response is ok,
the frontend reads the document and chunk counts it reports in its
success status message from the `statistics` object of the response
(`result.statistics.documents` and `result.statistics.chunks`), not from
top-level `documents_processed` / `chunks_created` fields. -/
theorem claim1_amended (s : AppState) (r : UploadResult)
    (st : UploadStatistics) (hf : s.files ≠ []) (hst : r.statistics = some st) :
    (uploadDocuments s (HttpOutcome.ok r)).1.uploadStatus
      = uploadSuccessMessage st ∧
    uploadReportedCounts r = some (st.documents, st.chunks) := by
  simp [uploadDocuments, uploadReportedCounts, if_neg hf, hst]

/-- C1 (witness for the amended theorem). -/
theorem claim1_witness :
    (uploadDocuments
        { files := ["a.pdf"], query := "", answer := none, loading := false,
          stats := none, uploadStatus := "" }
        (HttpOutcome.ok
          { statistics := some { documents := 2, chunks := 7 } })).1.uploadStatus
      = uploadSuccessMessage { documents := 2, chunks := 7 } :=
  (claim1_amended _ _ { documents := 2, chunks := 7 } (by decide) rfl).1

/-- C2: for every search invocation with a question whose trim is
non-empty, the single request sent to the query boundary carries the
JSON body `{question, top_k, include_sources}` where `question` is the
entered text, `top_k` is the default 5 and `include_sources` is true. -/
theorem claim2_request (s : AppState) (o : HttpOutcome AnswerView)
    (h : jsTrim s.query ≠ "") :
    (searchKnowledgeBase s o).2
      = [Request.queryReq
          { question := s.query, top_k := 5, include_sources := true }] := by
  unfold searchKnowledgeBase searchRequest
  rw [if_neg h]
  cases o <;> rfl

/-- C2 (witness). -/
theorem claim2_witness :
    (searchKnowledgeBase
        { files := [], query := "What is machine learning?", answer := none,
          loading := false, stats := none, uploadStatus := "" }
        (HttpOutcome.threw "network down")).2
      = [Request.queryReq
          { question := "What is machine learning?", top_k := 5,
            include_sources := true }] :=
  claim2_request _ _ (by decide)

/-- C3: the confidence label is high exactly when the top retrieved
similarity score is above 0.70, medium exactly when it lies in
[0.50, 0.70], and low exactly when it is below 0.50 or the
RetrievalResult is empty; in particular a top score of exactly 0.70 or
exactly 0.50 yields medium, and the empty result yields low. -/
theorem claim3_confidence (r : List ScoredChunk) :
    (score r = Confidence.high ↔ ∃ t, topScore r = some t ∧ 7/10 < t) ∧
    (score r = Confidence.medium
      ↔ ∃ t, topScore r = some t ∧ 1/2 ≤ t ∧ t ≤ 7/10) ∧
    (score r = Confidence.low
      ↔ topScore r = none ∨ ∃ t, topScore r = some t ∧ t < 1/2) ∧
    (topScore r = some (7/10) → score r = Confidence.medium) ∧
    (topScore r = some (1/2) → score r = Confidence.medium) ∧
    score ([] : List ScoredChunk) = Confidence.low := by
  cases r with
  | nil => simp [score, topScore]
  | cons c rest =>
    have htop : topScore (c :: rest) = some c.similarity_score := rfl
    have hscore : score (c :: rest)
        = (if 7/10 < c.similarity_score then Confidence.high
           else if 1/2 ≤ c.similarity_score then Confidence.medium
           else Confidence.low) := rfl
    rw [htop, hscore]
    rcases lt_or_le (7/10 : ℚ) c.similarity_score with h1 | h1
    · rw [if_pos h1]
      refine ⟨?_, ?_, ?_, ?_, ?_, rfl⟩
      · exact ⟨fun _ => ⟨c.similarity_score, rfl, h1⟩, fun _ => rfl⟩
      · constructor
        · intro hc; exact Confidence.noConfusion hc
        · rintro ⟨t, ht, _, ht2⟩
          obtain rfl : c.similarity_score = t := Option.some.inj ht
          exact absurd h1 (not_lt.mpr ht2)
      · constructor
        · intro hc; exact Confidence.noConfusion hc
        · rintro (hn | ⟨t, ht, ht2⟩)
          · exact Option.noConfusion hn
          · obtain rfl : c.similarity_score = t := Option.some.inj ht
            have hmid : (1 : ℚ)/2 < 7/10 := by norm_num
            exact absurd (lt_trans ht2 hmid) (not_lt.mpr (le_of_lt h1))
      · intro ht
        obtain h70 : c.similarity_score = 7/10 := Option.some.inj ht
        rw [h70] at h1; exact absurd h1 (lt_irrefl _)
      · intro ht
        obtain h50 : c.similarity_score = 1/2 := Option.some.inj ht
        rw [h50] at h1
        exact absurd h1 (by norm_num)
    · rw [if_neg (not_lt.mpr h1)]
      rcases le_or_lt (1/2 : ℚ) c.similarity_score with h2 | h2
      · rw [if_pos h2]
        refine ⟨?_, ?_, ?_, fun _ => rfl, fun _ => rfl, rfl⟩
        · constructor
          · intro hc; exact Confidence.noConfusion hc
          · rintro ⟨t, ht, ht1⟩
            obtain rfl : c.similarity_score = t := Option.some.inj ht
            exact absurd ht1 (not_lt.mpr h1)
        · exact ⟨fun _ => ⟨c.similarity_score, rfl, h2, h1⟩, fun _ => rfl⟩
        · constructor
          · intro hc; exact Confidence.noConfusion hc
          · rintro (hn | ⟨t, ht, ht2⟩)
            · exact Option.noConfusion hn
            · obtain rfl : c.similarity_score = t := Option.some.inj ht
              exact absurd ht2 (not_lt.mpr h2)
      · rw [if_neg (not_le.mpr h2)]
        refine ⟨?_, ?_, ?_, ?_, ?_, rfl⟩
        · constructor
          · intro hc; exact Confidence.noConfusion hc
          · rintro ⟨t, ht, ht1⟩
            obtain rfl : c.similarity_score = t := Option.some.inj ht
            exact absurd ht1 (not_lt.mpr h1)
        · constructor
          · intro hc; exact Confidence.noConfusion hc
          · rintro ⟨t, ht, ht1, _⟩
            obtain rfl : c.similarity_score = t := Option.some.inj ht
            exact absurd ht1 (not_le.mpr h2)
        · exact ⟨fun _ => Or.inr ⟨c.similarity_score, rfl, h2⟩,
                 fun _ => rfl⟩
        · intro ht
          obtain h70 : c.similarity_score = 7/10 := Option.some.inj ht
          rw [h70] at h2; exact absurd h2 (by norm_num)
        · intro ht
          obtain h50 : c.similarity_score = 1/2 := Option.some.inj ht
          rw [h50] at h2; exact absurd h2 (lt_irrefl _)

/-- C3 (witness): the boundary scores 0.70 and 0.50 both yield medium. -/
theorem claim3_witness :
    score [{ chunk_ref := "c1", similarity_score := 7/10 }]
        = Confidence.medium ∧
    score [{ chunk_ref := "c2", similarity_score := 1/2 }]
        = Confidence.medium :=
  ⟨(claim3_confidence
      [{ chunk_ref := "c1", similarity_score := 7/10 }]).2.2.2.1 rfl,
   (claim3_confidence
      [{ chunk_ref := "c2", similarity_score := 1/2 }]).2.2.2.2.1 rfl⟩

/-- C4: a stats fetch that receives a response stores it whole, and the
document and chunk counts the stats bar displays are exactly the
`total_documents` and `total_chunks` fields of that response. -/
theorem claim4_stats (s : AppState) (body : StatsResponse) :
    displayedDocuments (fetchStats s (Except.ok body)).1
      = some body.total_documents ∧
    displayedChunks (fetchStats s (Except.ok body)).1
      = some body.total_chunks :=
  ⟨rfl, rfl⟩

/-- C5: a query invocation (past the non-blank guard) whose response is
not ok, or whose fetch throws, always yields a stored degraded answer
object whose text is an explanatory error message and whose sources list
is empty — the failure is absorbed, never left unhandled. -/
theorem claim5_degraded (s : AppState) (d : Option String) (m : String)
    (h : jsTrim s.query ≠ "") :
    (searchKnowledgeBase s (HttpOutcome.notOk d)).1.answer
      = some { answer := "Error: " ++ optionText d, sources := [],
               confidence := none } ∧
    (searchKnowledgeBase s (HttpOutcome.threw m)).1.answer
      = some { answer := "Error: " ++ m, sources := [],
               confidence := none } := by
  unfold searchKnowledgeBase
  refine ⟨?_, ?_⟩ <;> rw [if_neg h]

/-- C5 (witness). -/
theorem claim5_witness :
    (searchKnowledgeBase
        { files := [], query := "why?", answer := none, loading := false,
          stats := none, uploadStatus := "" }
        (HttpOutcome.threw "Failed to fetch")).1.answer
      = some { answer := "Error: Failed to fetch", sources := [],
               confidence := none } :=
  (claim5_degraded
    { files := [], query := "why?", answer := none, loading := false,
      stats := none, uploadStatus := "" }
    (some "Internal Server Error") "Failed to fetch" (by decide)).2

/-- C6 (counterexample): the claim that every file offered to the upload
boundary through the UI has one of the four declared extensions is
false: selecting the file "notes.md" through the change handler and
uploading sends it to the upload boundary although it matches none of
the accept extensions — the accept attribute is a picker filter, not a
validation the frontend enforces. -/
theorem claim6_counterexample :
    (uploadDocuments
        (handleFileChange
          { files := [], query := "", answer := none, loading := false,
            stats := none, uploadStatus := "" }
          ["notes.md"])
        (HttpOutcome.ok
          { statistics := some { documents := 1, chunks := 1 } })).2
      = [Request.uploadReq ["notes.md"], Request.statsReq] ∧
    hasAcceptedExtension "notes.md" = false := by
  exact ⟨rfl, by decide⟩

/-- C6 (amended): the accept attribute of the file input declares exactly
the four extensions .pdf, .txt, .docx and .pptx, but the frontend
performs no extension validation of its own — the change handler stores
whatever files were selected — so files with other extensions can still
reach the upload boundary. -/
theorem claim6_amended :
    acceptedExtensions = [".pdf", ".txt", ".docx", ".pptx"] ∧
    ∀ (s : AppState) (selected : List String),
      (handleFileChange s selected).files = selected := by
  exact ⟨by decide, fun s selected => rfl⟩

/-- C7: a confirmed clear invocation sends exactly one request — the
DELETE to the clear boundary — whatever the outcome, and on an ok
response the frontend shows the cleared confirmation and resets its
stored stats and answer to null (so the stats bar and answer section
display nothing). -/
theorem claim7_clear (s : AppState) (o : HttpOutcome Unit) :
    (clearKnowledgeBase s true o).2 = [Request.clearReq] ∧
    (clearKnowledgeBase s true (HttpOutcome.ok ())).1.uploadStatus
      = "✓ Knowledge base cleared" ∧
    (clearKnowledgeBase s true (HttpOutcome.ok ())).1.stats = none ∧
    (clearKnowledgeBase s true (HttpOutcome.ok ())).1.answer = none := by
  refine ⟨?_, rfl, rfl, rfl⟩
  cases o <;> rfl

/-- C8: with an empty selected-files list, uploadDocuments returns with
the state unchanged and no request sent; with a question that trims to
the empty string (empty or whitespace-only), searchKnowledgeBase does
the same — so every request reaching the upload or query boundary comes
from a non-empty file list or a non-blank question. -/
theorem claim8_guards (s : AppState) (oU : HttpOutcome UploadResult)
    (oQ : HttpOutcome AnswerView)
    (hf : s.files = []) (hq : jsTrim s.query = "") :
    uploadDocuments s oU = (s, []) ∧ searchKnowledgeBase s oQ = (s, []) := by
  constructor
  · unfold uploadDocuments; rw [if_pos hf]
  · unfold searchKnowledgeBase; rw [if_pos hq]

/-- C8 (witness): no files and a whitespace-only question. -/
theorem claim8_witness :
    uploadDocuments
        { files := [], query := "   ", answer := none, loading := false,
          stats := none, uploadStatus := "" }
        (HttpOutcome.threw "network down")
      = ({ files := [], query := "   ", answer := none, loading := false,
           stats := none, uploadStatus := "" }, []) ∧
    searchKnowledgeBase
        { files := [], query := "   ", answer := none, loading := false,
          stats := none, uploadStatus := "" }
        (HttpOutcome.threw "network down")
      = ({ files := [], query := "   ", answer := none, loading := false,
           stats := none, uploadStatus := "" }, []) :=
  claim8_guards _ _ _ rfl (by decide)

/-- C9: every upload, search, or clear operation that runs (past its
guard) leaves the loading flag false on completion, whether the response
was ok, not ok, or the call threw — no outcome leaves the UI stuck in
the loading state. -/
theorem claim9_loading (s : AppState) (oU : HttpOutcome UploadResult)
    (oQ : HttpOutcome AnswerView) (oC : HttpOutcome Unit) :
    (s.files ≠ [] → (uploadDocuments s oU).1.loading = false) ∧
    (jsTrim s.query ≠ "" → (searchKnowledgeBase s oQ).1.loading = false) ∧
    (clearKnowledgeBase s true oC).1.loading = false := by
  refine ⟨?_, ?_, ?_⟩
  · intro h
    unfold uploadDocuments
    rw [if_neg h]
    cases oU with
    | ok r =>
      rcases hr : r.statistics with _ | st <;> simp only [hr]
    | notOk d => rfl
    | threw m => rfl
  · intro h
    unfold searchKnowledgeBase
    rw [if_neg h]
    cases oQ <;> rfl
  · unfold clearKnowledgeBase
    cases oC <;> rfl

/-- C9 (witness). -/
theorem claim9_witness :
    (uploadDocuments
        { files := ["a.pdf"], query := "hi", answer := none,
          loading := true, stats := none, uploadStatus := "" }
        (HttpOutcome.notOk none)).1.loading = false ∧
    (searchKnowledgeBase
        { files := ["a.pdf"], query := "hi", answer := none,
          loading := true, stats := none, uploadStatus := "" }
        (HttpOutcome.ok { answer := "42", sources := [] })).1.loading
      = false ∧
    (clearKnowledgeBase
        { files := ["a.pdf"], query := "hi", answer := none,
          loading := true, stats := none, uploadStatus := "" }
        true (HttpOutcome.threw "network down")).1.loading = false :=
  ⟨(claim9_loading _ (HttpOutcome.notOk none)
      (HttpOutcome.ok { answer := "42", sources := [] })
      (HttpOutcome.threw "network down")).1 (by decide),
   (claim9_loading _ (HttpOutcome.notOk none)
      (HttpOutcome.ok { answer := "42", sources := [] })
      (HttpOutcome.threw "network down")).2.1 (by decide),
   (claim9_loading _ (HttpOutcome.notOk none)
      (HttpOutcome.ok { answer := "42", sources := [] })
      (HttpOutcome.threw "network down")).2.2⟩

/-- C10: the stats bar — the only place the Clear All control is
rendered — is visible exactly when the stored stats are non-null with a
chunk count above zero; with null stats or zero chunks the clear
operation is unreachable from the UI. -/
theorem claim10_statsbar (s : AppState) :
    (statsBarVisible s = true
      ↔ ∃ st, s.stats = some st ∧ 0 < st.total_chunks) ∧
    (∀ st, s.stats = some st → st.total_chunks = 0
      → clearAllReachable s = false) ∧
    (s.stats = none → clearAllReachable s = false) := by
  obtain ⟨f, q, a, l, stats, u⟩ := s
  cases stats with
  | none =>
    refine ⟨?_, ?_, fun _ => rfl⟩
    · constructor
      · intro hv
        exact Bool.noConfusion hv
      · rintro ⟨st, hst, _⟩
        exact Option.noConfusion hst
    · intro st hst
      exact Option.noConfusion hst
  | some st =>
    refine ⟨?_, ?_, ?_⟩
    · constructor
      · intro hv
        have hd : decide (0 < st.total_chunks) = true := hv
        exact ⟨st, rfl, of_decide_eq_true hd⟩
      · rintro ⟨st2, hst2, hpos⟩
        obtain rfl : st = st2 := Option.some.inj hst2
        exact decide_eq_true hpos
    · intro st2 hst2 hzero
      obtain rfl : st = st2 := Option.some.inj hst2
      show decide (0 < st.total_chunks) = false
      rw [hzero]
      decide
    · intro hn
      exact Option.noConfusion hn

/-- C10 (witness): with zero chunks the stats bar and Clear All button
are not rendered. -/
theorem claim10_witness :
    clearAllReachable
        { files := [], query := "", answer := none, loading := false,
          stats := some { total_documents := 0, total_chunks := 0 },
          uploadStatus := "" }
      = false :=
  (claim10_statsbar
    { files := [], query := "", answer := none, loading := false,
      stats := some { total_documents := 0, total_chunks := 0 },
      uploadStatus := "" }).2.1
    { total_documents := 0, total_chunks := 0 } rfl rfl

end App
